import Mathlib

/-!
Verification development for the minireload live-reload library.

The Python source (src/minireload/autoreload.py, src/minireload/reloader.py)
is shallowly embedded below.  Python dictionaries are modelled as association
lists with unique keys (`getK` / `setK` / `delK` mirror `d[k]`, `d[k] = v`,
`del d[k]`); module namespaces map identifiers to entity values; stateful
methods become explicit state-passing functions.
-/

namespace Minireload

/-! ## Association-list dictionary model -/

/-- Dictionary lookup, `d.get(k)` / `d[k]` in Python. -/
def getK [DecidableEq κ] : List (κ × α) → κ → Option α
  | [], _ => none
  | (k', v) :: rest, k => if k = k' then some v else getK rest k

/-- Dictionary store, `d[k] = v` in Python: replaces the first binding of `k`,
or appends a fresh binding at the end (Python dicts keep insertion order). -/
def setK [DecidableEq κ] : List (κ × α) → κ → α → List (κ × α)
  | [], k, v => [(k, v)]
  | (k', v') :: rest, k, v =>
      if k' = k then (k, v) :: rest else (k', v') :: setK rest k v

/-- Dictionary deletion, `del d[k]` / `delattr` in Python. -/
def delK [DecidableEq κ] : List (κ × α) → κ → List (κ × α)
  | [], _ => []
  | (k', v') :: rest, k =>
      if k' = k then delK rest k else (k', v') :: delK rest k

/-- The key list of a dictionary. -/
def keysOf (d : List (κ × α)) : List κ := d.map Prod.fst

theorem getK_setK [DecidableEq κ] (d : List (κ × α)) (k : κ) (v : α) (k' : κ) :
    getK (setK d k v) k' = if k' = k then some v else getK d k' := by
  induction d with
  | nil => simp only [setK, getK]
  | cons p rest ih =>
    obtain ⟨a, b⟩ := p
    by_cases hak : a = k
    · subst hak
      by_cases h : k' = a <;> simp [setK, getK, h]
    · by_cases h : k' = a
      · have hkk : ¬ k' = k := fun hh => hak (h.symm.trans hh)
        simp [setK, hak, getK, h, hkk]
      · simp [setK, hak, getK, h, ih]

theorem getK_delK [DecidableEq κ] (d : List (κ × α)) (k k' : κ) :
    getK (delK d k) k' = if k' = k then none else getK d k' := by
  induction d with
  | nil => simp [delK, getK]
  | cons p rest ih =>
    obtain ⟨a, b⟩ := p
    by_cases hak : a = k
    · subst hak
      by_cases h : k' = a
      · subst h
        simp [delK, getK, ih]
      · simp [delK, getK, ih, h]
    · by_cases h : k' = a
      · have hkk : ¬ k' = k := fun hh => hak (h.symm.trans hh)
        simp [delK, hak, getK, h, hkk]
      · simp [delK, hak, getK, h, ih]

theorem getK_eq_none_of_not_mem [DecidableEq κ] (d : List (κ × α)) (k : κ)
    (h : k ∉ keysOf d) : getK d k = none := by
  induction d with
  | nil => rfl
  | cons p rest ih =>
    obtain ⟨a, b⟩ := p
    simp only [keysOf, List.map_cons, List.mem_cons, not_or] at h
    simp only [getK, if_neg h.1]
    exact ih (fun hm => h.2 (by simpa [keysOf] using hm))

/-! ## C1 — superreload rollback on failed re-execution

From `superreload` (autoreload.py):

    old_dict = module.__dict__.copy()
    try:
        module = reload(module)
    except:
        module.__dict__.update(old_dict)
        raise

`reload` re-executes the module source inside the module's existing
namespace dictionary; a fault partway through leaves the bindings executed
so far in place.  The except branch then merges `old_dict` back with
`dict.update`, which overwrites keys present in `old_dict` but does not
remove keys that the partial re-execution freshly introduced.
-/

/-- An entity is abstracted to a numeric identity. -/
abbrev NS := List (String × Nat)

/-- Python `d.update(u)`: for each binding in `u` (in order), store it in `d`.
Also models re-executing source in an existing namespace: each executed
top-level statement binds one identifier. -/
def dictUpdate (d u : NS) : NS := u.foldl (fun a p => setK a p.1 p.2) d

/-- State of the module namespace after `superreload` catches a fault raised
partway through re-execution: `binds` are the top-level bindings the partial
re-execution performed before faulting, and the except branch then runs
`module.__dict__.update(old_dict)` with the pre-reload snapshot. -/
def superreload_failed (moduleDict binds : NS) : NS :=
  let old_dict := moduleDict
  let after_fault := dictUpdate moduleDict binds
  dictUpdate after_fault old_dict

theorem getK_dictUpdate_of_none (u : NS) :
    ∀ (d : NS) (k : String), getK u k = none →
      getK (dictUpdate d u) k = getK d k := by
  induction u with
  | nil => intro d k _; rfl
  | cons p rest ih =>
    intro d k h
    obtain ⟨a, b⟩ := p
    by_cases hka : k = a
    · simp [getK, hka] at h
    · simp only [getK, if_neg hka] at h
      simp only [dictUpdate, List.foldl_cons]
      rw [show (List.foldl (fun a p => setK a p.1 p.2) (setK d a b) rest) =
            dictUpdate (setK d a b) rest from rfl,
        ih _ k h, getK_setK, if_neg hka]

theorem getK_dictUpdate_of_some (u : NS) :
    ∀ (d : NS) (k : String) (v : Nat), (keysOf u).Nodup → getK u k = some v →
      getK (dictUpdate d u) k = some v := by
  induction u with
  | nil => intro d k v _ h; simp [getK] at h
  | cons p rest ih =>
    intro d k v hnd h
    obtain ⟨a, b⟩ := p
    simp only [keysOf, List.map_cons, List.nodup_cons] at hnd
    by_cases hka : k = a
    · subst hka
      have hb : getK (dictUpdate d ((k, b) :: rest)) k = some b := by
        simp only [dictUpdate, List.foldl_cons]
        rw [show (List.foldl (fun a p => setK a p.1 p.2) (setK d k b) rest) =
              dictUpdate (setK d k b) rest from rfl,
          getK_dictUpdate_of_none rest _ k
            (getK_eq_none_of_not_mem rest k hnd.1),
          getK_setK, if_pos rfl]
      rw [hb]
      simpa [getK] using h
    · simp only [getK, if_neg hka] at h
      simp only [dictUpdate, List.foldl_cons]
      exact ih _ k v (by simpa [keysOf] using hnd.2) h

/-- C1 (amended): after a fault during re-execution, `superreload` restores
the pre-attempt binding of every identifier that was present before the
attempt, but an identifier freshly bound by the partial re-execution keeps
its partial value in the namespace.  (The claim as stated — the mapping is
observably identical, no freshly bound identifier remains — is refuted by
`c1_rollback_counterexample`.) -/
theorem c1_rollback_restores_old_bindings (d binds : NS) (k : String)
    (hnd : (keysOf d).Nodup) :
    (∀ v, getK d k = some v → getK (superreload_failed d binds) k = some v) ∧
    (getK d k = none →
      getK (superreload_failed d binds) k = getK (dictUpdate d binds) k) := by
  constructor
  · intro v hv
    exact getK_dictUpdate_of_some d (dictUpdate d binds) k v hnd hv
  · intro hnone
    exact getK_dictUpdate_of_none d (dictUpdate d binds) k hnone

/-- C1 witness: on a namespace `a ↦ 1` where the failed re-execution first
rebound `a ↦ 5`, the rollback restores `a ↦ 1`. -/
theorem c1_rollback_restores_old_bindings_witness :
    getK (superreload_failed [("a", 1)] [("a", 5), ("b", 2)]) "a" = some 1 :=
  (c1_rollback_restores_old_bindings [("a", 1)] [("a", 5), ("b", 2)] "a"
    (by decide)).1 1 (by decide)

/-- C1 counterexample: namespace before the attempt is `a ↦ 1`; the partial
re-execution binds `b ↦ 2` and then faults.  After the rollback the
namespace still contains `b ↦ 2`, so the identifier-to-entity mapping is not
observably identical to its pre-attempt state and an identifier bound during
the partial re-execution remains. -/
theorem c1_rollback_counterexample :
    getK (superreload_failed [("a", 1)] [("b", 2)]) "b" = some 2 ∧
    getK [(("a" : String), (1 : Nat))] "b" = none := by
  constructor <;> decide

/-! ## C7 — watch-based change detector (ReloadEventHandler, reloader.py)

    def on_any_event(self, event):
        if event.is_directory: return
        if event.event_type not in ["modified", "moved", "created"]: return
        with self.lock:
            if event.src_path not in self.reload_set:
                self.reload_set.add(event.src_path)

    def pop_reload_set(self):
        with self.lock:
            rl = self.reload_set
            self.reload_set = set()
        return rl
-/

/-- Watchdog filesystem event kinds. -/
inductive EventType where
  | created
  | modified
  | moved
  | deleted
  | closed
  | opened
deriving DecidableEq, Repr

/-- A watchdog filesystem event. -/
structure FsEvent where
  is_directory : Bool
  event_type : EventType
  src_path : String
deriving DecidableEq, Repr

/-- State of the handler: the accumulated dirty set (a Python set, modelled
as a duplicate-free list thanks to the membership guard before adding). -/
structure ReloadEventHandler where
  reload_set : List String
deriving DecidableEq, Repr

def on_any_event (h : ReloadEventHandler) (e : FsEvent) : ReloadEventHandler :=
  if e.is_directory then h
  else if e.event_type ∉ [EventType.modified, EventType.moved, EventType.created] then h
  else if e.src_path ∈ h.reload_set then h
  else ReloadEventHandler.mk (h.reload_set ++ [e.src_path])

def pop_reload_set (h : ReloadEventHandler) :
    List String × ReloadEventHandler :=
  (h.reload_set, ReloadEventHandler.mk [])

/-- C7: `pop_reload_set` swaps the accumulator for an empty one and returns
the previous contents; directory events and event types other than
create/modify/move leave the set unchanged; delivering the same event twice
is the same as delivering it once; hence a second drain with no qualifying
notification in between returns the empty set, so a path is reported at most
once across two consecutive drains. -/
theorem c7_drain_swap_and_dedup (h : ReloadEventHandler) (e : FsEvent) :
    ((pop_reload_set h).1 = h.reload_set ∧
      (pop_reload_set (pop_reload_set h).2).1 = []) ∧
    (e.is_directory = true → on_any_event h e = h) ∧
    (e.event_type ∉ [EventType.modified, EventType.moved, EventType.created] →
      on_any_event h e = h) ∧
    on_any_event (on_any_event h e) e = on_any_event h e := by
  refine ⟨⟨rfl, rfl⟩, ?_, ?_, ?_⟩
  · intro hd
    simp [on_any_event, hd]
  · intro ht
    simp [on_any_event, ht]
  · by_cases hd : e.is_directory
    · simp [on_any_event, hd]
    · by_cases ht :
        e.event_type ∈ [EventType.modified, EventType.moved, EventType.created]
      · by_cases hm : e.src_path ∈ h.reload_set
        · simp [on_any_event, hd, ht, hm]
        · simp [on_any_event, hd, ht, hm]
      · simp [on_any_event, hd, ht]

/-- C7 witness: a file-modified event followed by two drains: the first
drain returns the path, the second returns the empty set; a directory event
is ignored. -/
theorem c7_drain_swap_and_dedup_witness :
    (pop_reload_set
      (pop_reload_set
        (on_any_event (ReloadEventHandler.mk [])
          (FsEvent.mk false EventType.modified "/a.py"))).2).1 = [] ∧
    on_any_event (ReloadEventHandler.mk [])
      (FsEvent.mk true EventType.modified "/a.py") =
      ReloadEventHandler.mk [] := by
  constructor
  · exact (c7_drain_swap_and_dedup
      (on_any_event (ReloadEventHandler.mk [])
        (FsEvent.mk false EventType.modified "/a.py"))
      (FsEvent.mk false EventType.modified "/a.py")).1.2
  · exact (c7_drain_swap_and_dedup (ReloadEventHandler.mk [])
      (FsEvent.mk true EventType.modified "/a.py")).2.1 rfl

/-! ## C8 — Reloader.__init__ watches every root recursively (reloader.py)

    for path, recursive in reload_paths:
        if not os.path.isabs(path):
            raise ValueError(...)
        observer = Observer()
        observer.schedule(self.event_handler, path, recursive=True)
        observer.start()

The loop variable holding the pair's recursive flag is never used: the watch
is always scheduled with recursion enabled.
-/

/-- POSIX os.path.isabs: the path starts with a slash. -/
def isabs (p : String) : Bool :=
  match p.data with
  | [] => false
  | c :: _ => c = '/'

/-- Reloader.__init__, restricted to the observer-scheduling loop: raises
ValueError (modelled as `Except.error path`) on the first non-absolute path,
otherwise returns the scheduled watches as (path, recursion flag passed to
schedule) pairs. -/
def reloader_init_observers :
    List (String × Bool) → Except String (List (String × Bool))
  | [] => Except.ok []
  | (path, _flagRec) :: rest =>
      if isabs path then
        match reloader_init_observers rest with
        | Except.ok ws => Except.ok ((path, true) :: ws)
        | Except.error err => Except.error err
      else
        Except.error path

/-- C8: whenever construction succeeds, every scheduled watch has recursion
enabled, regardless of the configured pair's own recursive flag. -/
theorem c8_watch_always_recursive (ps ws : List (String × Bool))
    (h : reloader_init_observers ps = Except.ok ws) :
    ws = ps.map (fun pr => (pr.1, true)) := by
  induction ps generalizing ws with
  | nil =>
    simp only [reloader_init_observers] at h
    cases h
    rfl
  | cons p rest ih =>
    obtain ⟨path, fr⟩ := p
    by_cases ha : isabs path
    · simp only [reloader_init_observers, if_pos ha] at h
      cases hrec : reloader_init_observers rest with
      | ok ws' =>
        rw [hrec] at h
        cases h
        simp [ih ws' hrec]
      | error e =>
        rw [hrec] at h
        cases h
    · simp [reloader_init_observers, ha] at h

/-- C8 witness: a configuration with recursive=False still schedules its
watch with recursion enabled. -/
theorem c8_watch_always_recursive_witness :
    reloader_init_observers [("/src", false)] = Except.ok [("/src", true)] ∧
    [(("/src" : String), true)] =
      [(("/src" : String), false)].map (fun pr => (pr.1, true)) := by
  refine ⟨by rfl, ?_⟩
  exact c8_watch_always_recursive [("/src", false)] [("/src", true)] (by rfl)

/-! ## C3 — watch-based Reloader.reload result (reloader.py)

    reload_set = self.event_handler.pop_reload_set()
    if len(reload_set) == 0:
        return False
    self.reloaded_modules = []
    for name, m in sys.modules.items():
        try: origin = m.__spec__.origin
        except AttributeError: continue
        if origin in reload_set:
            self.reloaded_modules.append(m)
    for m in self.reloaded_modules:
        superreload(m, old_objects=self.old_objects)
    gc.collect()
    return True
-/

/-- A loaded entry of sys.modules: name plus spec origin.  `origin = none`
models a module for which `m.__spec__.origin` raises AttributeError. -/
structure ModEntry where
  name : String
  origin : Option String
deriving DecidableEq, Repr

/-- Reloader.reload: returns the boolean result together with the names of
the modules actually passed to superreload. -/
def Reloader_reload (reload_set : List String) (sys_modules : List ModEntry) :
    Bool × List String :=
  if reload_set.length = 0 then (false, [])
  else
    let reloaded_modules := sys_modules.filterMap (fun m =>
      match m.origin with
      | none => none
      | some o => if o ∈ reload_set then some m.name else none)
    (true, reloaded_modules)

/-- C3 (amended): the watch-based reload() returns true exactly when the
drained change set is non-empty — even when no loaded unit's origin lies in
that set, in which case it returns true while reloading zero units.  (The
claim as stated — false whenever no unit was actually reloaded — is refuted
by `c3_reload_result_counterexample`.) -/
theorem c3_reload_true_iff_nonempty_drain (rs : List String)
    (ms : List ModEntry) :
    ((Reloader_reload rs ms).1 = true ↔ rs ≠ []) ∧
    ((∀ m ∈ ms, ∀ o, m.origin = some o → o ∉ rs) →
      (Reloader_reload rs ms).2 = []) := by
  constructor
  · by_cases hr : rs.length = 0
    · simp [Reloader_reload, hr, List.length_eq_zero.mp hr]
    · simp [Reloader_reload, hr, List.length_eq_zero]
      exact fun hmm => hr (by simp [hmm])
  · intro hnone
    by_cases hr : rs.length = 0
    · simp [Reloader_reload, hr]
    · simp only [Reloader_reload, if_neg hr]
      refine List.filterMap_eq_nil_iff.mpr (fun m hm => ?_)
      cases horig : m.origin with
      | none => rfl
      | some o =>
        simp only [if_neg (hnone m hm o horig)]

/-- C3 counterexample: the drained change set holds one path that is the
origin of no loaded unit (sys.modules is empty), yet reload() returns true
and reloads zero units — the claim says it must return false. -/
theorem c3_reload_result_counterexample :
    Reloader_reload ["/a.py"] [] = (true, []) := by
  rfl

/-- C3 witness: a non-empty drained set whose single path matches no loaded
module's origin yields result true with no module reloaded. -/
theorem c3_reload_true_iff_nonempty_drain_witness :
    (Reloader_reload ["/a.py"] [ModEntry.mk "m" (some "/b.py")]).1 = true ∧
    (Reloader_reload ["/a.py"] [ModEntry.mk "m" (some "/b.py")]).2 = [] := by
  constructor
  · exact (c3_reload_true_iff_nonempty_drain ["/a.py"]
      [ModEntry.mk "m" (some "/b.py")]).1.mpr (by simp)
  · exact (c3_reload_true_iff_nonempty_drain ["/a.py"]
      [ModEntry.mk "m" (some "/b.py")]).2 (by decide)

/-! ## C4 — WrappingReloader.__call__ (reloader.py)

    try:
        if self.reload():
            self.exc_info = None
        if self.exc_info is None:
            return self.func(*args, **kwargs)
        else:
            time.sleep(self.retry_after_secs)
            return self.exc_info
    except KeyboardInterrupt as e: raise e
    except SystemExit as e: raise e
    except Exception as e:
        traceback.print_exc()
        self.exc_info = ReloadErrorInfo(e)
        return self.exc_info
-/

/-- What one invocation of the wrapper returns. -/
inductive CallOutcome where
  | retval : Nat → CallOutcome
  | errinfo : Nat → CallOutcome
deriving DecidableEq, Repr

/-- One invocation of WrappingReloader.__call__.  Inputs: the cached
exc_info, the boolean returned by self.reload() at the start, and what the
wrapped func would do if invoked (normal value or raised exception).
Output: (new cached exc_info, func invoked?, backoff sleep ran?, returned
value). -/
def wrapping_call (exc_info : Option Nat) (reload_result : Bool)
    (func_run : Except Nat Nat) :
    Option Nat × Bool × Bool × CallOutcome :=
  let e := if reload_result then none else exc_info
  match e with
  | none =>
    match func_run with
    | Except.ok v => (none, true, false, CallOutcome.retval v)
    | Except.error err => (some err, true, false, CallOutcome.errinfo err)
  | some err => (some err, false, true, CallOutcome.errinfo err)

/-- C4: the cache ends up clear exactly when the pre-existing error was
discarded (reload returned true, or none was cached) and the invocation
completed without a new fault being cached; and when an error is cached and
reload returned false, the wrapped callable is not invoked, the backoff
sleep runs, and the very same cached error value is returned with the cache
unchanged. -/
theorem c4_cached_error_policy (exc : Option Nat) (r : Bool)
    (f : Except Nat Nat) :
    ((wrapping_call exc r f).1 = none ↔
      ((r = true ∨ exc = none) ∧ ∃ v, f = Except.ok v)) ∧
    (∀ e, exc = some e → r = false →
      wrapping_call exc r f = (some e, false, true, CallOutcome.errinfo e)) := by
  cases r <;> cases exc <;> cases f <;>
    simp [wrapping_call]

/-- C4 witness: with error 7 cached and reload() returning false, the call
returns the cached error 7, does not invoke the callable, sleeps, and keeps
the cache at 7; and the cache is not clear afterwards. -/
theorem c4_cached_error_policy_witness :
    wrapping_call (some 7) false (Except.ok 0) =
      (some 7, false, true, CallOutcome.errinfo 7) :=
  (c4_cached_error_policy (some 7) false (Except.ok 0)).2 7 rfl rfl

/-! ## C5 — poll worker scan cycle (scan_modules, autoreload.py)

    for name, origin in req.items():
        if name in [None, "__mp_main__", "__main__"]: continue
        if origin in [None, "built-in", "frozen"]: continue
        try: mtime = os.stat(origin).st_mtime
        except OSError: continue
        try:
            if mtime_table[name] < mtime:
                needs_reload.append(name)
                mtime_table[name] = mtime
        except KeyError:
            mtime_table[name] = mtime
-/

/-- Entry-unit names the scanner refuses to reload (the non-None part of the
source's first skip list). -/
def skip_name (n : String) : Bool :=
  n == "__mp_main__" || n == "__main__"

/-- Origins denoting built-in or frozen code (the non-None part of the
source's second skip list). -/
def skip_origin (o : String) : Bool :=
  o == "built-in" || o == "frozen"

/-- One (name, origin) pair of a scan request.  `none` models a literal None
name or origin; `fs_mtime` models `os.stat(origin).st_mtime`, with `none`
for an OSError.  Result: (updated table, was the unit reported dirty?). -/
def scan_step (tbl : List (String × Nat)) (name origin : Option String)
    (fs_mtime : String → Option Nat) : List (String × Nat) × Bool :=
  match name with
  | none => (tbl, false)
  | some n =>
    if skip_name n then (tbl, false)
    else
      match origin with
      | none => (tbl, false)
      | some o =>
        if skip_origin o then (tbl, false)
        else
          match fs_mtime o with
          | none => (tbl, false)
          | some mtime =>
            match getK tbl n with
            | some told =>
                if told < mtime then (setK tbl n mtime, true)
                else (tbl, false)
            | none => (setK tbl n mtime, false)

/-- One full scan cycle: fold `scan_step` over the request, accumulating the
dirty names in order. -/
def scan_cycle (tbl : List (String × Nat))
    (req : List (Option String × Option String))
    (fs_mtime : String → Option Nat) : List (String × Nat) × List String :=
  req.foldl (fun acc p =>
    let r := scan_step acc.1 p.1 p.2 fs_mtime
    match p.1 with
    | some n => (r.1, if r.2 then acc.2 ++ [n] else acc.2)
    | none => (r.1, acc.2)) (tbl, [])

/-- C5: per (name, origin) pair of a scan cycle — entry-unit and None names
are skipped; None, built-in and frozen origins are skipped; a pair whose
origin cannot be stat-ed is silently skipped, never dirty; a name not yet in
the table has its time recorded without being dirty; and a name is dirty
exactly when the stat-ed time is strictly newer than the stored one, in
which case the table entry is updated. -/
theorem c5_scan_step_spec (tbl : List (String × Nat))
    (fs : String → Option Nat) :
    (∀ origin, scan_step tbl none origin fs = (tbl, false)) ∧
    (∀ n origin, skip_name n = true →
      scan_step tbl (some n) origin fs = (tbl, false)) ∧
    (∀ n, skip_name n = false →
      scan_step tbl (some n) none fs = (tbl, false)) ∧
    (∀ n o, skip_name n = false → skip_origin o = true →
      scan_step tbl (some n) (some o) fs = (tbl, false)) ∧
    (∀ n o, skip_name n = false → skip_origin o = false → fs o = none →
      scan_step tbl (some n) (some o) fs = (tbl, false)) ∧
    (∀ n o m, skip_name n = false → skip_origin o = false → fs o = some m →
      getK tbl n = none →
      scan_step tbl (some n) (some o) fs = (setK tbl n m, false)) ∧
    (∀ n o m t, skip_name n = false → skip_origin o = false →
      fs o = some m → getK tbl n = some t →
      scan_step tbl (some n) (some o) fs =
        if t < m then (setK tbl n m, true) else (tbl, false)) ∧
    (∀ n o, (scan_step tbl (some n) (some o) fs).2 = true ↔
      skip_name n = false ∧ skip_origin o = false ∧
      ∃ m t, fs o = some m ∧ getK tbl n = some t ∧ t < m) := by
  refine ⟨fun _ => rfl, ?_, ?_, ?_, ?_, ?_, ?_, ?_⟩
  · intro n origin hn
    cases origin <;> simp [scan_step, hn]
  · intro n hn
    simp [scan_step, hn]
  · intro n o hn ho
    simp [scan_step, hn, ho]
  · intro n o hn ho hfs
    simp [scan_step, hn, ho, hfs]
  · intro n o m hn ho hfs hg
    simp [scan_step, hn, ho, hfs, hg]
  · intro n o m t hn ho hfs hg
    simp [scan_step, hn, ho, hfs, hg]
  · intro n o
    constructor
    · intro hd
      by_cases hn : skip_name n = true
      · simp [scan_step, hn] at hd
      · by_cases ho : skip_origin o = true
        · simp [scan_step, hn, ho] at hd
        · cases hfs : fs o with
          | none => simp [scan_step, hn, ho, hfs] at hd
          | some m =>
            cases hg : getK tbl n with
            | none => simp [scan_step, hn, ho, hfs, hg] at hd
            | some t =>
              by_cases hlt : t < m
              · exact ⟨by simpa using hn, by simpa using ho,
                  m, t, rfl, rfl, hlt⟩
              · simp [scan_step, hn, ho, hfs, hg, hlt] at hd
    · rintro ⟨hn, ho, m, t, hfs, hg, hlt⟩
      simp [scan_step, hn, ho, hfs, hg, hlt]

/-- C5 witness: a module with stored time 1 whose file now has time 5 is
reported dirty and its table entry is updated to 5. -/
theorem c5_scan_step_spec_witness :
    scan_step [("m", 1)] (some "m") (some "/m.py")
      (fun o => if o = "/m.py" then some 5 else none) = ([("m", 5)], true) := by
  have h := (c5_scan_step_spec [("m", 1)]
    (fun o => if o = "/m.py" then some 5 else none)).2.2.2.2.2.2.1
    "m" "/m.py" 5 1 (by decide) (by decide) (by simp) (by decide)
  rw [h]
  decide

/-! ## C9 — legacy launch() with default error-handler name (reloader.py)

    def launch(cls, func_name, exc_func_name=""):
        obj = cls()
        func = getattr(obj, func_name)
        exc_func = getattr(obj, exc_func_name, None)
        reloader = WrappingReloader(func)
        while True:
            res = reloader()
            if exc_func_name is not None and type(res) == ReloadErrorInfo:
                exc_func(res)

The guard tests the handler NAME against None; the default name is the
empty string, which is not None, while the resolved handler is None.
-/

/-- An instantiated object: its method table.  Python identifiers are
non-empty, so a real object never has a method named the empty string. -/
structure LaunchObj where
  methods : String → Option Nat

/-- `getattr(obj, name, None)`. -/
def getattr_default (obj : LaunchObj) (name : String) : Option Nat :=
  obj.methods name

/-- One iteration of the launch loop once `res = reloader()` is available;
`res_is_errinfo` states whether `type(res) == ReloadErrorInfo`.  Calling a
None handler raises TypeError. -/
def launch_iteration (exc_func_name : Option String) (exc_func : Option Nat)
    (res_is_errinfo : Bool) : Except String Unit :=
  if exc_func_name ≠ none ∧ res_is_errinfo = true then
    match exc_func with
    | none => Except.error "TypeError"
    | some _ => Except.ok ()
  else Except.ok ()

/-- launch's handler resolution (`exc_func = getattr(obj, exc_func_name,
None)`) combined with the first loop iteration whose `res` is a structured
error value.  (A None handler name would already fault inside getattr; that
branch is not exercised here and resolves to none.) -/
def launch_first_error (obj : LaunchObj) (exc_func_name : Option String) :
    Except String Unit :=
  let exc_func :=
    match exc_func_name with
    | none => none
    | some s => getattr_default obj s
  launch_iteration exc_func_name exc_func true

/-- C9: with the error-handler name left at its default empty string, the
first iteration that produces a structured error value raises TypeError,
because the guard compares the name (not None) rather than the resolved
handler (None) before calling it. -/
theorem c9_launch_default_handler_type_error (obj : LaunchObj)
    (h : getattr_default obj "" = none) :
    launch_first_error obj (some "") = Except.error "TypeError" := by
  simp [launch_first_error, launch_iteration, h]

/-- C9 witness: an object exposing only a "main" method faults with
TypeError on the first structured error under the default handler name. -/
theorem c9_launch_default_handler_type_error_witness :
    launch_first_error
      (LaunchObj.mk (fun s => if s = "main" then some 0 else none))
      (some "") = Except.error "TypeError" :=
  c9_launch_default_handler_type_error
    (LaunchObj.mk (fun s => if s = "main" then some 0 else none))
    (by simp [getattr_default])

/-! ## C10 — poll facade passes a missing module (None) to superreload

    for modname in changed:
        m = sys.modules.get(modname, None)
        superreload(m, reload, self.old_objects)

superreload's first statement iterates `module.__dict__.items()`, which on
None raises AttributeError.
-/

/-- The value ModuleReloader.reload passes as superreload's `module`
argument. -/
inductive PyModuleArg where
  | noneArg : PyModuleArg
  | moduleArg : NS → PyModuleArg
deriving DecidableEq, Repr

/-- superreload's first access, `list(module.__dict__.items())`: None has no
`__dict__`, so AttributeError; a real module yields its namespace items and
superreload proceeds from there (the remainder is not needed for this
claim). -/
def superreload_dict_items (module : PyModuleArg) : Except String NS :=
  match module with
  | PyModuleArg.noneArg => Except.error "AttributeError"
  | PyModuleArg.moduleArg d => Except.ok d

/-- ModuleReloader.reload, for one changed name:
`superreload(sys.modules.get(modname, None), ...)`. -/
def module_reloader_reload_one (sys_modules : List (String × NS))
    (modname : String) : Except String NS :=
  superreload_dict_items
    (match getK sys_modules modname with
     | some d => PyModuleArg.moduleArg d
     | none => PyModuleArg.noneArg)

/-- C10: a changed name no longer present in the loaded-unit table makes the
facade pass None to superreload, which raises AttributeError instead of
silently skipping the name. -/
theorem c10_missing_module_attribute_error (sys_modules : List (String × NS))
    (modname : String) (h : getK sys_modules modname = none) :
    module_reloader_reload_one sys_modules modname =
      Except.error "AttributeError" := by
  simp [module_reloader_reload_one, superreload_dict_items, h]

/-- C10 witness: with an empty loaded-unit table, reloading the name "gone"
raises AttributeError. -/
theorem c10_missing_module_attribute_error_witness :
    module_reloader_reload_one [] "gone" = Except.error "AttributeError" :=
  c10_missing_module_attribute_error [] "gone" (by rfl)

/-! ## C6 — weak back-reference appends during superreload collection

    for name, obj in list(module.__dict__.items()):
        if not append_obj(module, old_objects, name, obj):
            continue
        key = (module.__name__, name)
        try:
            old_objects.setdefault(key, []).append(weakref.ref(obj))
        except TypeError:
            pass

and append_obj itself (autoreload.py):

    def append_obj(module, d, name, obj, autoload=False):
        in_module = hasattr(obj, "__module__") and obj.__module__ == module.__name__
        if autoload:
            if not in_module and name in mod_attrs: return False
        else:
            if not in_module: return False
        key = (module.__name__, name)
        try:
            d.setdefault(key, []).append(weakref.ref(obj))
        except TypeError:
            pass
        return True

append_obj appends a weak reference AND returns True, whereupon the caller
appends a second weak reference to the same object under the same key.
-/

/-- A top-level object as the tracking code sees it: its `__module__`
attribute (none when absent) and whether `weakref.ref(obj)` succeeds. -/
structure TrackedObj where
  module_attr : Option String
  weakrefable : Bool
deriving DecidableEq, Repr

/-- The tracked-entity registry, abstracted to the number of weak
back-references stored under each (module name, identifier) key. -/
abbrev Registry := List ((String × String) × Nat)

/-- `d.setdefault(key, []).append(weakref.ref(obj))` inside
`try ... except TypeError: pass`: setdefault materialises the entry, then
the append lands only when the object is weak-referenceable. -/
def registry_append (d : Registry) (key : String × String)
    (weakrefable : Bool) : Registry :=
  let cur := (getK d key).getD 0
  setK d key (if weakrefable then cur + 1 else cur)

/-- Module-global built-in identifiers (mod_attrs in autoreload.py). -/
def mod_attrs : List String :=
  ["__name__", "__doc__", "__package__", "__loader__", "__spec__",
   "__file__", "__cached__", "__builtins__"]

/-- append_obj: returns the updated registry and the source's boolean. -/
def append_obj (module_name : String) (d : Registry) (name : String)
    (obj : TrackedObj) (autoload : Bool) : Registry × Bool :=
  let in_module := obj.module_attr = some module_name
  if autoload then
    if ¬ in_module ∧ name ∈ mod_attrs then (d, false)
    else (registry_append d (module_name, name) obj.weakrefable, true)
  else
    if ¬ in_module then (d, false)
    else (registry_append d (module_name, name) obj.weakrefable, true)

/-- One iteration of superreload's collection loop. -/
def collect_step (module_name : String) (d : Registry)
    (p : String × TrackedObj) : Registry :=
  let r := append_obj module_name d p.1 p.2 false
  if r.2 then registry_append r.1 (module_name, p.1) p.2.weakrefable
  else r.1

/-- The collection loop at the top of superreload. -/
def superreload_collect (module_name : String)
    (module_dict : List (String × TrackedObj)) (old_objects : Registry) :
    Registry :=
  module_dict.foldl (collect_step module_name) old_objects

theorem getK_registry_append (d : Registry) (key key' : String × String)
    (w : Bool) :
    getK (registry_append d key w) key' =
      if key' = key then
        some (if w then (getK d key).getD 0 + 1 else (getK d key).getD 0)
      else getK d key' := by
  simp only [registry_append, getK_setK]

theorem collect_step_frame (module_name : String) (d : Registry)
    (p : String × TrackedObj) (key : String × String)
    (h : key ≠ (module_name, p.1)) :
    getK (collect_step module_name d p) key = getK d key := by
  by_cases hin : p.2.module_attr = some module_name
  · simp [collect_step, append_obj, hin, getK_registry_append, h]
  · simp [collect_step, append_obj, hin]

theorem collect_step_tracked (module_name : String) (d : Registry)
    (p : String × TrackedObj) (hin : p.2.module_attr = some module_name)
    (hw : p.2.weakrefable = true) :
    getK (collect_step module_name d p) (module_name, p.1) =
      some ((getK d (module_name, p.1)).getD 0 + 2) := by
  simp [collect_step, append_obj, hin, getK_registry_append, hw]

theorem superreload_collect_frame (module_name : String)
    (key : String × String) :
    ∀ (module_dict : List (String × TrackedObj)) (d : Registry),
      (∀ nm ∈ keysOf module_dict, key ≠ (module_name, nm)) →
      getK (superreload_collect module_name module_dict d) key =
        getK d key := by
  intro dict
  induction dict with
  | nil => intro d _; rfl
  | cons p rest ih =>
    intro d h
    have h1 : key ≠ (module_name, p.1) := h p.1 (by simp [keysOf])
    have h2 : ∀ nm ∈ keysOf rest, key ≠ (module_name, nm) := by
      intro nm hm
      apply h
      simp only [keysOf, List.map_cons, List.mem_cons]
      exact Or.inr (by simpa [keysOf] using hm)
    calc getK (superreload_collect module_name (p :: rest) d) key
        = getK (superreload_collect module_name rest
            (collect_step module_name d p)) key := rfl
      _ = getK (collect_step module_name d p) key := ih _ h2
      _ = getK d key := collect_step_frame module_name d p key h1

/-- C6 (amended): during superreload's collection phase, every trackable,
weak-referenceable top-level (identifier, entity) of the unit namespace gets
exactly TWO weak back-references appended under (unit name, identifier) —
one inside append_obj and a second by the collection loop itself.  (The
claim's "exactly one" is refuted by `c6_append_counterexample`.) -/
theorem c6_two_refs_appended (module_name : String) :
    ∀ (module_dict : List (String × TrackedObj)) (old_objects : Registry),
      (keysOf module_dict).Nodup →
      ∀ name obj, (name, obj) ∈ module_dict →
        obj.module_attr = some module_name → obj.weakrefable = true →
        getK (superreload_collect module_name module_dict old_objects)
            (module_name, name) =
          some ((getK old_objects (module_name, name)).getD 0 + 2) := by
  intro dict
  induction dict with
  | nil => intro d _ name obj hmem; cases hmem
  | cons p rest ih =>
    intro d hnd name obj hmem hin hw
    simp only [keysOf, List.map_cons, List.nodup_cons] at hnd
    rcases List.mem_cons.mp hmem with heq | hrest
    · cases heq.symm
      have hframe := superreload_collect_frame module_name
        (module_name, name) rest (collect_step module_name d (name, obj))
        (by
          intro nm hm hc
          have hnm : name = nm := congrArg Prod.snd hc
          apply hnd.1
          show name ∈ List.map Prod.fst rest
          rw [hnm]
          simpa [keysOf] using hm)
      calc getK (superreload_collect module_name ((name, obj) :: rest) d)
              (module_name, name)
          = getK (superreload_collect module_name rest
              (collect_step module_name d (name, obj)))
              (module_name, name) := rfl
        _ = getK (collect_step module_name d (name, obj))
              (module_name, name) := hframe
        _ = some ((getK d (module_name, name)).getD 0 + 2) :=
              collect_step_tracked module_name d (name, obj) hin hw
    · have hne : (module_name, name) ≠ (module_name, p.1) := by
        intro hc
        have hnp : name = p.1 := congrArg Prod.snd hc
        have hmem2 : name ∈ List.map Prod.fst rest :=
          List.mem_map_of_mem Prod.fst hrest
        exact hnd.1 (hnp ▸ hmem2)
      have hstep := ih (collect_step module_name d p)
        (by simpa [keysOf] using hnd.2) name obj hrest hin hw
      rw [collect_step_frame module_name d p (module_name, name) hne] at hstep
      exact hstep

/-- C6 counterexample: one trackable, weak-referenceable entity `f` in unit
`m`, starting from an empty registry: after the collection phase the key
("m", "f") holds two back-references, not one as the claim states. -/
theorem c6_append_counterexample :
    getK (superreload_collect "m" [("f", TrackedObj.mk (some "m") true)] [])
      ("m", "f") = some 2 := by
  decide

/-- C6 witness: the amended theorem applied to that same one-entity unit. -/
theorem c6_two_refs_appended_witness :
    getK (superreload_collect "m" [("f", TrackedObj.mk (some "m") true)] [])
      ("m", "f") = some (0 + 2) :=
  c6_two_refs_appended "m" [("f", TrackedObj.mk (some "m") true)] []
    (by decide) "f" (TrackedObj.mk (some "m") true) (by decide) rfl rfl

/-! ## C2 — update_class and update_instances (autoreload.py)

    def update_class(old, new):
        for key in list(old.__dict__.keys()):
            old_obj = getattr(old, key)
            try:
                new_obj = getattr(new, key)
                if (old_obj == new_obj) is True:
                    continue
            except AttributeError:
                try: delattr(old, key)
                except (AttributeError, TypeError): pass
                continue
            if update_generic(old_obj, new_obj):
                continue
            try: setattr(old, key, getattr(new, key))
            except (AttributeError, TypeError): pass
        for key in list(new.__dict__.keys()):
            if key not in list(old.__dict__.keys()):
                try: setattr(old, key, getattr(new, key))
                except (AttributeError, TypeError): pass
        update_instances(old, new)

Class attribute values are modelled as plain data, functions (abstracted to
their behavioural payload: code, defaults, doc, closure, globals, dict) and
property triples; classes are identified by numeric object ids in a world of
class dictionaries plus live instances.
-/

/-- A class attribute value. -/
inductive CEntity where
  | base : Nat → CEntity
  | fn : Nat → CEntity
  | prop : Option Nat → Option Nat → Option Nat → CEntity
deriving DecidableEq, Repr

/-- update_function: every func_attrs slot of the old function object is
overwritten with the new one's, so the old object now carries exactly the
new payload. -/
def update_function (_old new : Nat) : Nat := new

/-- update_generic applied to one property slot pair (fdel / fget / fset):
when both slots hold a function, update_function patches the old one in
place; otherwise no UPDATE_RULES entry matches and the old slot is left
untouched (update_property ignores update_generic's result). -/
def update_prop_slot : Option Nat → Option Nat → Option Nat
  | some old, some new => some (update_function old new)
  | old, _ => old

/-- update_generic (autoreload.py), over the modelled entity kinds: returns
the patched old entity when an UPDATE_RULES entry matches both operands,
none when no rule matches (the caller then overwrites the attribute slot). -/
def update_generic : CEntity → CEntity → Option CEntity
  | CEntity.fn oldc, CEntity.fn newc =>
      some (CEntity.fn (update_function oldc newc))
  | CEntity.prop og osl od, CEntity.prop ng nsl nd =>
      some (CEntity.prop (update_prop_slot og ng) (update_prop_slot osl nsl)
        (update_prop_slot od nd))
  | _, _ => none

/-- The live-object world: class objects (object id ↦ own attribute
dictionary) and instances (instance id ↦ object id of its type). -/
structure PyWorld where
  classes : List (Nat × List (String × CEntity))
  instances : List (Nat × Nat)
deriving DecidableEq, Repr

/-- update_instances (autoreload.py): via gc.get_referrers, every live
object whose type is exactly the old class object gets its __class__
retargeted to the new class object. -/
def update_instances (old new : Nat) (insts : List (Nat × Nat)) :
    List (Nat × Nat) :=
  insts.map (fun r => if r.2 = old then (r.1, new) else r)

/-- One iteration of update_class's first loop for `key`: the obsolete key
is deleted; an equal value is kept; otherwise update_generic patches in
place, falling back to overwriting the slot with the new value. -/
def update_class_step1 (newD : List (String × CEntity))
    (d : List (String × CEntity)) (key : String) : List (String × CEntity) :=
  match getK d key with
  | none => d
  | some old_obj =>
    match getK newD key with
    | none => delK d key
    | some new_obj =>
      if old_obj = new_obj then d
      else
        match update_generic old_obj new_obj with
        | some patched => setK d key patched
        | none => setK d key new_obj

/-- One iteration of update_class's second loop for `key`: an attribute the
old class does not currently have is copied from the new class. -/
def update_class_step2 (newD : List (String × CEntity))
    (d : List (String × CEntity)) (key : String) : List (String × CEntity) :=
  match getK newD key with
  | none => d
  | some v => if (getK d key).isSome then d else setK d key v

/-- update_class: both key loops on the old class's own dictionary, then the
live-instance retargeting sweep. -/
def update_class (old new : Nat) (w : PyWorld) : PyWorld :=
  let oldD := (getK w.classes old).getD []
  let newD := (getK w.classes new).getD []
  let d1 := (keysOf oldD).foldl (update_class_step1 newD) oldD
  let d2 := (keysOf newD).foldl (update_class_step2 newD) d1
  PyWorld.mk (setK w.classes old d2) (update_instances old new w.instances)

/-- The reconciled value of an attribute present in both classes: kept when
equal, patched in place when an UPDATE_RULES entry applies, otherwise
overwritten with the new value. -/
def reconcile (ov nv : CEntity) : CEntity :=
  if ov = nv then ov else (update_generic ov nv).getD nv

/-- The old class object's dictionary after update_class. -/
def class_dict_after (old new : Nat) (w : PyWorld) :
    List (String × CEntity) :=
  (getK (update_class old new w).classes old).getD []

/-- Attribute lookup through an instance: instance ↦ its type ↦ the type's
dictionary. -/
def instance_attr (w : PyWorld) (i : Nat) (k : String) : Option CEntity :=
  match getK w.instances i with
  | none => none
  | some c => getK ((getK w.classes c).getD []) k

theorem getK_isSome_of_mem_keys [DecidableEq κ] (d : List (κ × α)) (k : κ)
    (h : k ∈ keysOf d) : (getK d k).isSome := by
  induction d with
  | nil => cases h
  | cons p rest ih =>
    by_cases hk : k = p.1
    · simp [getK, hk]
    · simp only [keysOf, List.map_cons, List.mem_cons] at h
      rcases h with h | h
      · exact absurd h hk
      · simp only [getK, if_neg hk]
        exact ih (by simpa [keysOf] using h)

theorem mem_keys_of_getK_ne_none [DecidableEq κ] (d : List (κ × α)) (k : κ)
    (h : getK d k ≠ none) : k ∈ keysOf d := by
  by_contra hc
  exact h (getK_eq_none_of_not_mem d k hc)

theorem phase1_getK (newD : List (String × CEntity)) :
    ∀ (ks : List String) (d : List (String × CEntity)) (k : String),
      ks.Nodup →
      getK (ks.foldl (update_class_step1 newD) d) k =
        if k ∈ ks then
          match getK d k, getK newD k with
          | some ov, some nv => some (reconcile ov nv)
          | some _, none => none
          | none, _ => none
        else getK d k := by
  intro ks
  induction ks with
  | nil => intro d k _; simp
  | cons a ks' ih =>
    intro d k hnd
    have hnd' : ks'.Nodup := hnd.of_cons
    by_cases hka : k = a
    · subst hka
      have hknot : k ∉ ks' := (List.nodup_cons.mp hnd).1
      rw [List.foldl_cons, ih _ k hnd', if_neg hknot,
        if_pos (List.mem_cons_self k ks')]
      cases hdk : getK d k with
      | none => simp [update_class_step1, hdk]
      | some ov =>
        cases hnk : getK newD k with
        | none => simp [update_class_step1, hdk, hnk, getK_delK]
        | some nv =>
          by_cases hov : ov = nv
          · simp [update_class_step1, hdk, hnk, hov, reconcile]
          · cases hg : update_generic ov nv with
            | none =>
              simp [update_class_step1, hdk, hnk, hov, hg, getK_setK,
                reconcile]
            | some patched =>
              simp [update_class_step1, hdk, hnk, hov, hg, getK_setK,
                reconcile]
    · rw [List.foldl_cons, ih _ k hnd']
      have hframe : getK (update_class_step1 newD d a) k = getK d k := by
        cases hda : getK d a with
        | none => simp [update_class_step1, hda]
        | some ov =>
          cases hna : getK newD a with
          | none => simp [update_class_step1, hda, hna, getK_delK, hka]
          | some nv =>
            by_cases hov : ov = nv
            · simp [update_class_step1, hda, hna, hov]
            · cases hg : update_generic ov nv with
              | none =>
                simp [update_class_step1, hda, hna, hov, hg, getK_setK, hka]
              | some patched =>
                simp [update_class_step1, hda, hna, hov, hg, getK_setK, hka]
      rw [hframe]
      simp [List.mem_cons, hka]

theorem phase2_getK (newD : List (String × CEntity)) :
    ∀ (ks : List String) (d : List (String × CEntity)) (k : String),
      getK (ks.foldl (update_class_step2 newD) d) k =
        if k ∈ ks ∧ getK d k = none then getK newD k else getK d k := by
  intro ks
  induction ks with
  | nil => intro d k; simp
  | cons a ks' ih =>
    intro d k
    rw [List.foldl_cons, ih]
    by_cases hka : k = a
    · subst hka
      cases hdk : getK d k with
      | none =>
        cases hnk : getK newD k with
        | none => simp [update_class_step2, hnk, hdk]
        | some v => simp [update_class_step2, hnk, hdk, getK_setK]
      | some v0 =>
        cases hnk : getK newD k with
        | none => simp [update_class_step2, hnk, hdk]
        | some v => simp [update_class_step2, hnk, hdk]
    · have hframe : getK (update_class_step2 newD d a) k = getK d k := by
        cases hna : getK newD a with
        | none => simp [update_class_step2, hna]
        | some v =>
          by_cases hda : (getK d a).isSome
          · simp [update_class_step2, hna, hda]
          · simp [update_class_step2, hna, hda, getK_setK, hka]
      rw [hframe]
      simp [List.mem_cons, hka]

theorem getK_update_instances (old new : Nat) :
    ∀ (insts : List (Nat × Nat)) (i : Nat),
      getK (update_instances old new insts) i =
        (getK insts i).map (fun c => if c = old then new else c) := by
  intro insts
  induction insts with
  | nil => intro i; rfl
  | cons p rest ih =>
    intro i
    have hstep : update_instances old new (p :: rest) =
        (if p.2 = old then (p.1, new) else p) :: update_instances old new rest :=
      rfl
    rw [hstep]
    by_cases hp2 : p.2 = old
    · rw [if_pos hp2]
      by_cases hip : i = p.1
      · simp [getK, hip, hp2]
      · simp [getK, hip, ih i]
    · rw [if_neg hp2]
      by_cases hip : i = p.1
      · simp [getK, hip, hp2]
      · simp [getK, hip, ih i]

/-- C2: after update_class (old, new), on the old class's own dictionary —
every attribute absent from the new class is deleted; every attribute
present in both classes holds the reconciled value (kept when equal, patched
in place by update_generic, otherwise overwritten with the new value); every
attribute present only in the new class is copied over; and every live
instance whose type was exactly the old class object now has the new class
object as its type. -/
theorem c2_update_class_spec (old new : Nat) (w : PyWorld)
    (oldD newD : List (String × CEntity))
    (hold : getK w.classes old = some oldD)
    (hnew : getK w.classes new = some newD)
    (hndo : (keysOf oldD).Nodup) :
    (∀ k ov, getK oldD k = some ov → getK newD k = none →
      getK (class_dict_after old new w) k = none) ∧
    (∀ k ov nv, getK oldD k = some ov → getK newD k = some nv →
      getK (class_dict_after old new w) k = some (reconcile ov nv)) ∧
    (∀ k nv, getK oldD k = none → getK newD k = some nv →
      getK (class_dict_after old new w) k = some nv) ∧
    (∀ i c, getK w.instances i = some c →
      getK (update_class old new w).instances i =
        some (if c = old then new else c)) := by
  have hdict : class_dict_after old new w =
      (keysOf newD).foldl (update_class_step2 newD)
        ((keysOf oldD).foldl (update_class_step1 newD) oldD) := by
    simp [class_dict_after, update_class, getK_setK, hold, hnew]
  refine ⟨?_, ?_, ?_, ?_⟩
  · intro k ov ho hn
    have hmo : k ∈ keysOf oldD :=
      mem_keys_of_getK_ne_none oldD k (by simp [ho])
    have hmn : k ∉ keysOf newD := by
      intro hmem
      have := getK_isSome_of_mem_keys newD k hmem
      simp [hn] at this
    rw [hdict, phase2_getK newD (keysOf newD) _ k,
      if_neg (by intro hc; exact hmn hc.1),
      phase1_getK newD (keysOf oldD) oldD k hndo, if_pos hmo, ho, hn]
  · intro k ov nv ho hn
    have hmo : k ∈ keysOf oldD :=
      mem_keys_of_getK_ne_none oldD k (by simp [ho])
    have hp1 : getK ((keysOf oldD).foldl (update_class_step1 newD) oldD) k =
        some (reconcile ov nv) := by
      rw [phase1_getK newD (keysOf oldD) oldD k hndo, if_pos hmo, ho, hn]
    rw [hdict, phase2_getK newD (keysOf newD) _ k,
      if_neg (by intro hc; rw [hp1] at hc; exact Option.noConfusion hc.2),
      hp1]
  · intro k nv ho hn
    have hmo : k ∉ keysOf oldD := by
      intro hmem
      have := getK_isSome_of_mem_keys oldD k hmem
      simp [ho] at this
    have hmn : k ∈ keysOf newD :=
      mem_keys_of_getK_ne_none newD k (by simp [hn])
    have hp1 : getK ((keysOf oldD).foldl (update_class_step1 newD) oldD) k =
        none := by
      rw [phase1_getK newD (keysOf oldD) oldD k hndo, if_neg hmo]
      exact ho
    rw [hdict, phase2_getK newD (keysOf newD) _ k, if_pos ⟨hmn, hp1⟩, hn]
  · intro i c hc
    have hinst : (update_class old new w).instances =
        update_instances old new w.instances := rfl
    rw [hinst, getK_update_instances, hc]
    rfl

/-- Scenario B world: class object 0 is `class C: attr = 1`; class object 1
is the re-executed `class C: attr = 2; def extra(self): return 99`;
instance 7 was created from the old class object. -/
def scenarioB : PyWorld :=
  PyWorld.mk
    [(0, [("attr", CEntity.base 1)]),
     (1, [("attr", CEntity.base 2), ("extra", CEntity.fn 99)])]
    [(7, 0)]

/-- C2 witness (Scenario B): after update_class, the old class dictionary
carries attr reconciled to 2 plus the new extra method, the pre-existing
instance's type is the new class object, and c.attr / c.extra resolved
through the instance reflect the new source. -/
theorem c2_update_class_spec_witness :
    getK (class_dict_after 0 1 scenarioB) "attr" =
      some (reconcile (CEntity.base 1) (CEntity.base 2)) ∧
    getK (class_dict_after 0 1 scenarioB) "extra" = some (CEntity.fn 99) ∧
    getK (update_class 0 1 scenarioB).instances 7 = some 1 ∧
    instance_attr (update_class 0 1 scenarioB) 7 "attr" =
      some (CEntity.base 2) ∧
    instance_attr (update_class 0 1 scenarioB) 7 "extra" =
      some (CEntity.fn 99) := by
  have h := c2_update_class_spec 0 1 scenarioB
    [("attr", CEntity.base 1)]
    [("attr", CEntity.base 2), ("extra", CEntity.fn 99)]
    (by decide) (by decide) (by decide)
  refine ⟨?_, ?_, ?_, by decide, by decide⟩
  · exact h.2.1 "attr" (CEntity.base 1) (CEntity.base 2) (by decide) (by decide)
  · exact h.2.2.1 "extra" (CEntity.fn 99) (by decide) (by decide)
  · have h4 := h.2.2.2 7 0 (by decide)
    simpa using h4

end Minireload

